import Mathlib

/-
Shallow embedding of src/src/sagemaker_serving.py: a SageMaker serving
adapter in front of a vLLM engine.  The module has

  * a lookup table `instance_to_gpus` from AWS instance types to GPU counts
    and a resolver `get_num_gpus` (lines 26-42);
  * `create_app` (lines 48-161), whose first half resolves configuration
    from environment variables (MODEL_ID, TOKENIZER, INSTANCE_TYPE,
    API_HOST, API_PORT, UVICORN_LOG_LEVEL) into engine CLI arguments, and
    whose second half constructs the engine, assigns the two module-level
    globals and registers the /ping and /invocations endpoints;
  * the per-request handler `invocations` (lines 141-159), which parses and
    validates the body, calls the serving-chat generation entry point, and
    produces a JSON, streaming or error response.

External collaborators (json decoding, pydantic validation of
ChatCompletionRequest, and the engine call create_chat_completion) enter
the embedding as parameters: the handler receives the outcome of the
parse/validate step and the engine as a function.
-/

namespace SagemakerServing

/-- Python-style JSON values as decoded by request.json(): the payload
dictionary maps string keys to these. -/
inductive JVal where
  | null : JVal
  | bool (b : Bool) : JVal
  | num (n : Int) : JVal
  | str (s : String) : JVal
  | arr (elems : List JVal) : JVal
  | obj (fields : List (String × JVal)) : JVal

/-- Python truthiness of a decoded JSON value, as used by the source's
`payload['stream']` test on line 154: None, False, 0, empty string, empty
list and empty dict are falsy, everything else truthy. -/
def JVal.truthy : JVal → Bool
  | .null => false
  | .bool b => b
  | .num n => n != 0
  | .str s => s != ""
  | .arr [] => false
  | .arr (_ :: _) => true
  | .obj [] => false
  | .obj (_ :: _) => true

/-- The dictionary on lines 26-36 mapping AWS instance types to the number
of GPUs. -/
def instance_to_gpus : List (String × Nat) :=
  [("ml.g5.4xlarge", 1),
   ("ml.g6.4xlarge", 1),
   ("ml.g5.12xlarge", 4),
   ("ml.g6.12xlarge", 4),
   ("ml.g5.48xlarge", 8),
   ("ml.g6.48xlarge", 8),
   ("ml.p4d.24xlarge", 8),
   ("ml.p4de.24xlarge", 8),
   ("ml.p5.48xlarge", 8)]

/-- Python dict lookup on an association list (the source dict has
pairwise-distinct keys, so first match is the dict entry). -/
def dictGet (d : List (String × Nat)) (k : String) : Option Nat :=
  (d.find? (fun kv => kv.1 == k)).map (fun kv => kv.2)

/-- Lines 38-42: `get_num_gpus` returns the table entry, and on a KeyError
raises ValueError with a message naming the offending instance type. -/
def get_num_gpus (instance_type : String) : Except String Nat :=
  match dictGet instance_to_gpus instance_type with
  | some n => .ok n
  | none => .error ("Instance type " ++ instance_type ++ " not found in the dictionary")

/-- Claim C1: every hardware-class key present in `instance_to_gpus`
resolves to the degree recorded in the table (in particular
"ml.g5.12xlarge" resolves to 4), and every key not in the table yields a
ValueError whose message names the offending value, never a default
degree. -/
theorem get_num_gpus_table_spec :
    (∀ k v, (k, v) ∈ instance_to_gpus → get_num_gpus k = .ok v)
    ∧ get_num_gpus "ml.g5.12xlarge" = .ok 4
    ∧ (∀ k, dictGet instance_to_gpus k = none →
        get_num_gpus k =
          .error ("Instance type " ++ k ++ " not found in the dictionary")) := by
  refine ⟨?_, rfl, ?_⟩
  · intro k v h
    fin_cases h <;> rfl
  · intro k h
    unfold get_num_gpus
    rw [h]

/-- Concrete instantiations of the table resolver theorem: the supported
key "ml.g5.4xlarge" resolves to 1, and the unsupported key "ml.unknown"
raises the ValueError naming it. -/
theorem get_num_gpus_table_spec_witness :
    get_num_gpus "ml.g5.4xlarge" = .ok 1
    ∧ get_num_gpus "ml.unknown" =
        .error ("Instance type " ++ "ml.unknown" ++ " not found in the dictionary") :=
  ⟨get_num_gpus_table_spec.1 "ml.g5.4xlarge" 1 (by simp [instance_to_gpus]),
   get_num_gpus_table_spec.2.2 "ml.unknown" rfl⟩

/-- Environment variables read by create_app (lines 59-82): None means the
variable is unset in the process environment. -/
structure Env where
  MODEL_ID : Option String
  TOKENIZER : Option String
  INSTANCE_TYPE : Option String
  API_HOST : Option String
  API_PORT : Option String
  UVICORN_LOG_LEVEL : Option String

/-- Fatal configuration failures in create_app: the sys.exit on line 61
when MODEL_ID is unset, and the ValueError raised by get_num_gpus on
line 71 for an unknown instance type. Either aborts startup before any
engine configuration exists. -/
inductive ConfigError where
  | missingModelId (msg : String) : ConfigError
  | valueError (msg : String) : ConfigError

/-- The engine configuration assembled by create_app from its cli_args
list (lines 56-94): each field is one argument pushed onto cli_args. -/
structure EngineConfig where
  model : String
  tokenizer : Option String
  tensor_parallel_size : Nat
  host : String
  port : String
  uvicorn_log_level : String
  trust_remote_code : Bool
  max_model_len : Nat
  limit_mm_image_per_prompt : Nat

/-- Lines 56-94 of create_app: resolve the engine configuration from the
environment. MODEL_ID is mandatory (sys.exit otherwise, line 61); an
empty-string TOKENIZER is falsy in Python so the flag is skipped (line
66); INSTANCE_TYPE defaults to "ml.g6.4xlarge" only when unset (line 70)
and is then resolved through get_num_gpus, whose ValueError propagates;
host, port and log level take their documented defaults; the final three
fields are fixed unconditionally by lines 85-91. -/
def create_app_config (env : Env) : Except ConfigError EngineConfig :=
  match env.MODEL_ID with
  | none => .error (.missingModelId "MODEL_ID must be provided")
  | some model_id =>
    match get_num_gpus (env.INSTANCE_TYPE.getD "ml.g6.4xlarge") with
    | .error msg => .error (.valueError msg)
    | .ok tensor_parallel_size =>
      .ok { model := model_id
            tokenizer := match env.TOKENIZER with
                         | some t => if t == "" then none else some t
                         | none => none
            tensor_parallel_size := tensor_parallel_size
            host := env.API_HOST.getD "0.0.0.0"
            port := env.API_PORT.getD "8000"
            uvicorn_log_level := env.UVICORN_LOG_LEVEL.getD "info"
            trust_remote_code := true
            max_model_len := 4049
            limit_mm_image_per_prompt := 2 }

/-- The validated chat-completion request produced by
ChatCompletionRequest(**payload) on line 144 (pydantic validation is an
external collaborator; only the fields the adapter logic could consult
are modelled, in particular the validated boolean stream field). -/
structure ChatCompletionRequest where
  messages : List (String × String)
  stream : Bool

/-- A non-error return of create_chat_completion (line 148): either the
buffered ChatCompletionResponse or the lazy chunk generator of a
streaming completion. -/
inductive GenOk where
  | chatCompletionResponse (body : JVal) : GenOk
  | chunkGenerator (chunks : List JVal) : GenOk

/-- The value returned by openai_serving_chat.create_chat_completion: a
structured ErrorResponse carrying its own HTTP status code (checked by
isinstance on line 150), or a non-error value. -/
inductive GenResult where
  | errorResponse (code : Nat) (body : JVal) : GenResult
  | ok (v : GenOk) : GenResult

/-- The HTTP responses the invocations handler can produce: a
JSONResponse with a status code (default 200), a StreamingResponse
(status 200) with a media type wrapping the engine value, or the
AssertionError raised by line 158 (an internal fault, never a normal
serialization). -/
inductive HttpResponse where
  | json (statusCode : Nat) (content : JVal) : HttpResponse
  | streaming (statusCode : Nat) (mediaType : String) (content : GenOk) : HttpResponse
  | assertionFailure : HttpResponse

/-- Python dict lookup in the decoded payload dictionary. -/
def lookupField (payload : List (String × JVal)) (key : String) : Option JVal :=
  (payload.find? (fun kv => kv.1 == key)).map (fun kv => kv.2)

/-- Line 154: `if 'stream' in payload and payload['stream']` — the key
must be present in the raw payload dict and its raw JSON value truthy. -/
def streamSelected (payload : List (String × JVal)) : Bool :=
  match lookupField payload "stream" with
  | some v => v.truthy
  | none => false

/-- Lines 141-159, the /invocations handler. `parsed` is the outcome of
the try-block (lines 142-146): request.json() followed by
ChatCompletionRequest(**payload); any exception yields the error branch
carrying str(e), and success yields the decoded payload dict together
with the validated request. `create_chat_completion` is the engine entry
point. ErrorResponse values are surfaced with their own status code;
otherwise the raw payload's stream truthiness selects a
StreamingResponse with media type text/event-stream, and the buffered
branch asserts the value is a ChatCompletionResponse before serializing
it with the default 200 status. -/
def invocations
    (parsed : Except String (List (String × JVal) × ChatCompletionRequest))
    (create_chat_completion : ChatCompletionRequest → GenResult) : HttpResponse :=
  match parsed with
  | .error e =>
      .json 400 (.obj [("error", .str "Invalid request format"), ("details", .str e)])
  | .ok (payload, chat_completion_request) =>
      match create_chat_completion chat_completion_request with
      | .errorResponse code body => .json code body
      | .ok generator =>
          if streamSelected payload then
            .streaming 200 "text/event-stream" generator
          else
            match generator with
            | .chatCompletionResponse body => .json 200 body
            | .chunkGenerator _ => .assertionFailure

/-- The module-level globals of lines 44-46, holding the engine handle
and the serving-chat instance (opaque to this layer). -/
structure ModuleState (E S : Type) where
  async_engine_client : E
  openai_serving_chat : S

/-- Lines 102-129 of create_app: the only assignments to the two
module-level globals, performed once during application construction.
The engine constructor and the OpenAIServingChat constructor are
external collaborators passed as functions. -/
def create_app_globals {E S : Type} (from_engine_args : EngineConfig → E)
    (mkOpenAIServingChat : E → S) (cfg : EngineConfig)
    (st : ModuleState E S) : ModuleState E S :=
  let st1 : ModuleState E S := { st with async_engine_client := from_engine_args cfg }
  { st1 with openai_serving_chat := mkOpenAIServingChat st1.async_engine_client }

/-- The invocations handler as a transformer of the module state: it
reads openai_serving_chat on line 148 to dispatch the engine call and
contains no global statement, so the state after the request is the
state before it. -/
def invocations_app {E S : Type} (st : ModuleState E S)
    (parsed : Except String (List (String × JVal) × ChatCompletionRequest))
    (create_chat_completion : S → ChatCompletionRequest → GenResult) :
    HttpResponse × ModuleState E S :=
  (invocations parsed (create_chat_completion st.openai_serving_chat), st)

/-- Lines 135-137: the /ping endpoint returns 200 with an empty JSON
object unconditionally. -/
def ping : HttpResponse := .json 200 (.obj [])

/-- Claim C2: for a request that parses and validates and whose engine
call does not return a structured error, a true stream flag yields a 200
StreamingResponse with media type text/event-stream whose content is the
engine's chunk sequence unchanged (hence in emission order), while a
false or absent stream flag yields a 200 buffered JSON body holding the
full completion. -/
theorem invocations_stream_flag_spec
    (payload : List (String × JVal)) (req : ChatCompletionRequest)
    (engine : ChatCompletionRequest → GenResult) :
    (∀ chunks, lookupField payload "stream" = some (.bool true) →
       engine req = .ok (.chunkGenerator chunks) →
       invocations (.ok (payload, req)) engine =
         .streaming 200 "text/event-stream" (.chunkGenerator chunks))
    ∧ (∀ body,
       (lookupField payload "stream" = some (.bool false) ∨
        lookupField payload "stream" = none) →
       engine req = .ok (.chatCompletionResponse body) →
       invocations (.ok (payload, req)) engine = .json 200 body) := by
  constructor
  · intro chunks hs he
    simp [invocations, he, streamSelected, hs, JVal.truthy]
  · intro body hs he
    rcases hs with hs | hs <;>
      simp [invocations, he, streamSelected, hs, JVal.truthy]

/-- Concrete instantiations of the stream-flag theorem: a streaming
request receives the two engine chunks as a text/event-stream response,
and a request without a stream key receives the buffered completion as a
200 JSON body. -/
theorem invocations_stream_flag_spec_witness :
    invocations (.ok ([("stream", .bool true)], ⟨[("user", "hi")], true⟩))
        (fun _ => .ok (.chunkGenerator [.str "chunk1", .str "chunk2"])) =
      .streaming 200 "text/event-stream" (.chunkGenerator [.str "chunk1", .str "chunk2"])
    ∧ invocations (.ok ([("messages", .arr [])], ⟨[("user", "hi")], false⟩))
        (fun _ => .ok (.chatCompletionResponse (.str "full completion"))) =
      .json 200 (.str "full completion") :=
  ⟨(invocations_stream_flag_spec [("stream", .bool true)] ⟨[("user", "hi")], true⟩
      (fun _ => .ok (.chunkGenerator [.str "chunk1", .str "chunk2"]))).1
      [.str "chunk1", .str "chunk2"] rfl rfl,
   (invocations_stream_flag_spec [("messages", .arr [])] ⟨[("user", "hi")], false⟩
      (fun _ => .ok (.chatCompletionResponse (.str "full completion")))).2
      (.str "full completion") (Or.inr rfl) rfl⟩

/-- Claim C3: when the body fails parsing or validation the handler
responds 400 with error field "Invalid request format" and a details
field holding the (non-empty) exception text, and the response does not
depend on the engine, which is never invoked. -/
theorem invocations_invalid_request_spec (e : String)
    (engine engineB : ChatCompletionRequest → GenResult) (h : e ≠ "") :
    invocations (.error e) engine =
      .json 400 (.obj [("error", .str "Invalid request format"), ("details", .str e)])
    ∧ JVal.str e ≠ .str ""
    ∧ invocations (.error e) engine = invocations (.error e) engineB := by
  refine ⟨rfl, ?_, rfl⟩
  intro hc
  injection hc with h2
  exact h h2

/-- Concrete instantiation of the invalid-request theorem at a typical
json.JSONDecodeError message. -/
theorem invocations_invalid_request_spec_witness :
    invocations (.error "Expecting value: line 1 column 1 (char 0)")
        (fun _ => .ok (.chatCompletionResponse (.str "x"))) =
      .json 400 (.obj [("error", .str "Invalid request format"),
                       ("details", .str "Expecting value: line 1 column 1 (char 0)")]) :=
  (invocations_invalid_request_spec "Expecting value: line 1 column 1 (char 0)"
      (fun _ => .ok (.chatCompletionResponse (.str "x")))
      (fun _ => .errorResponse 500 .null) (by decide)).1

/-- Claim C4: when the engine returns a structured ErrorResponse the
handler responds with exactly that error's declared status code and
exactly its body, for every payload, hence regardless of the stream
flag. -/
theorem invocations_error_passthrough_spec
    (payload : List (String × JVal)) (req : ChatCompletionRequest)
    (engine : ChatCompletionRequest → GenResult) (code : Nat) (body : JVal)
    (h : engine req = .errorResponse code body) :
    invocations (.ok (payload, req)) engine = .json code body := by
  simp [invocations, h]

/-- Concrete instantiations of the error-passthrough theorem, once with
the stream flag set and once without it: the 422 ErrorResponse passes
through unchanged both times. -/
theorem invocations_error_passthrough_spec_witness :
    invocations (.ok ([("stream", .bool true)], ⟨[("user", "hi")], true⟩))
        (fun _ => .errorResponse 422 (.str "maximum context length exceeded")) =
      .json 422 (.str "maximum context length exceeded")
    ∧ invocations (.ok ([("messages", .arr [])], ⟨[("user", "hi")], false⟩))
        (fun _ => .errorResponse 422 (.str "maximum context length exceeded")) =
      .json 422 (.str "maximum context length exceeded") :=
  ⟨invocations_error_passthrough_spec [("stream", .bool true)] ⟨[("user", "hi")], true⟩
      (fun _ => .errorResponse 422 (.str "maximum context length exceeded")) 422
      (.str "maximum context length exceeded") rfl,
   invocations_error_passthrough_spec [("messages", .arr [])] ⟨[("user", "hi")], false⟩
      (fun _ => .errorResponse 422 (.str "maximum context length exceeded")) 422
      (.str "maximum context length exceeded") rfl⟩

/-- Claim C5: whenever MODEL_ID is unset, configuration resolution exits
fatally with the missing-model error and produces no EngineConfig, for
every combination of the other environment inputs. -/
theorem create_app_missing_model_spec (env : Env) (h : env.MODEL_ID = none) :
    create_app_config env = .error (.missingModelId "MODEL_ID must be provided") := by
  unfold create_app_config
  rw [h]

/-- Concrete instantiation of the missing-model theorem at an otherwise
fully populated environment. -/
theorem create_app_missing_model_spec_witness :
    create_app_config ⟨none, some "tok", some "ml.g5.12xlarge", some "127.0.0.1",
        some "9000", some "debug"⟩ =
      .error (.missingModelId "MODEL_ID must be provided") :=
  create_app_missing_model_spec
    ⟨none, some "tok", some "ml.g5.12xlarge", some "127.0.0.1", some "9000", some "debug"⟩ rfl

/-- Claim C6: when the raw stream flag is falsy but the engine returns a
streaming chunk generator, the buffered branch's isinstance assertion
fails: the handler raises an internal fault instead of serializing or
flattening the streamed value. -/
theorem invocations_nonstream_violation_spec
    (payload : List (String × JVal)) (req : ChatCompletionRequest)
    (engine : ChatCompletionRequest → GenResult) (chunks : List JVal)
    (hs : streamSelected payload = false)
    (he : engine req = .ok (.chunkGenerator chunks)) :
    invocations (.ok (payload, req)) engine = .assertionFailure := by
  simp [invocations, he, hs]

/-- Concrete instantiation of the invariant-violation theorem: stream
key absent while the engine yields chunks. -/
theorem invocations_nonstream_violation_spec_witness :
    invocations (.ok ([("messages", .arr [])], ⟨[("user", "hi")], false⟩))
        (fun _ => .ok (.chunkGenerator [.str "chunk1"])) = .assertionFailure :=
  invocations_nonstream_violation_spec [("messages", .arr [])] ⟨[("user", "hi")], false⟩
    (fun _ => .ok (.chunkGenerator [.str "chunk1"])) [.str "chunk1"] rfl rfl

/-- Claim C7: every successfully resolved configuration carries the
three unconditional engine-safety defaults: trust-remote-code enabled,
max sequence length 4049 and a limit of 2 images per prompt. -/
theorem create_app_fixed_defaults_spec (env : Env) (cfg : EngineConfig)
    (h : create_app_config env = .ok cfg) :
    cfg.trust_remote_code = true ∧ cfg.max_model_len = 4049
    ∧ cfg.limit_mm_image_per_prompt = 2 := by
  unfold create_app_config at h
  split at h
  · exact Except.noConfusion h
  · split at h
    · exact Except.noConfusion h
    · injection h with h2
      subst h2
      exact ⟨rfl, rfl, rfl⟩

/-- Concrete instantiation of the fixed-defaults theorem at a minimal
environment carrying only MODEL_ID. -/
theorem create_app_fixed_defaults_spec_witness :
    (EngineConfig.mk "my-model" none 1 "0.0.0.0" "8000" "info" true 4049 2).trust_remote_code
        = true
    ∧ (EngineConfig.mk "my-model" none 1 "0.0.0.0" "8000" "info" true 4049 2).max_model_len
        = 4049
    ∧ (EngineConfig.mk "my-model" none 1 "0.0.0.0" "8000" "info" true
        4049 2).limit_mm_image_per_prompt = 2 :=
  create_app_fixed_defaults_spec ⟨some "my-model", none, none, none, none, none⟩
    (EngineConfig.mk "my-model" none 1 "0.0.0.0" "8000" "info" true 4049 2) rfl

/-- Claim C8: when INSTANCE_TYPE is unset, resolution uses the default
hardware class "ml.g6.4xlarge", a key of the table with degree 1; the
default applies only when the value is unset, for a set-but-unrecognized
value resolution fails with the ValueError naming it instead of falling
back. -/
theorem create_app_default_instance_spec :
    (∀ env m, env.MODEL_ID = some m → env.INSTANCE_TYPE = none →
       ∃ cfg, create_app_config env = .ok cfg ∧ cfg.tensor_parallel_size = 1)
    ∧ dictGet instance_to_gpus "ml.g6.4xlarge" = some 1
    ∧ (∀ env m s, env.MODEL_ID = some m → env.INSTANCE_TYPE = some s →
       dictGet instance_to_gpus s = none →
       create_app_config env =
         .error (.valueError ("Instance type " ++ s ++ " not found in the dictionary"))) := by
  refine ⟨?_, rfl, ?_⟩
  · intro env m hm hi
    unfold create_app_config
    rw [hm, hi]
    exact ⟨_, rfl, rfl⟩
  · intro env m s hm hi hd
    unfold create_app_config get_num_gpus
    rw [hm, hi, Option.getD_some, hd]

/-- Concrete instantiations of the default-instance theorem: an
environment without INSTANCE_TYPE resolves (to degree 1), and one with
the unrecognized value "ml.unknown" fails naming it. -/
theorem create_app_default_instance_spec_witness :
    (∃ cfg, create_app_config ⟨some "my-model", none, none, none, none, none⟩ = .ok cfg
       ∧ cfg.tensor_parallel_size = 1)
    ∧ create_app_config ⟨some "my-model", none, some "ml.unknown", none, none, none⟩ =
        .error (.valueError ("Instance type " ++ "ml.unknown" ++ " not found in the dictionary")) :=
  ⟨create_app_default_instance_spec.1 ⟨some "my-model", none, none, none, none, none⟩
      "my-model" rfl rfl,
   create_app_default_instance_spec.2.2 ⟨some "my-model", none, some "ml.unknown", none, none, none⟩
      "my-model" "ml.unknown" rfl rfl rfl⟩

/-- Claim C9: the streamed-versus-buffered selection is computed from
the truthiness of the raw payload dict's stream entry, independent of
the validated request object (first conjunct varies the validated
object, leaving the response unchanged); whenever the key is present the
selector equals Python truthiness of its raw JSON value, so 1 or a
non-empty string select streaming and present-but-falsy values select
the buffered branch. -/
theorem invocations_raw_truthiness_spec :
    (∀ payload (req reqB : ChatCompletionRequest) (v : GenOk),
       invocations (.ok (payload, req)) (fun _ => .ok v) =
         invocations (.ok (payload, reqB)) (fun _ => .ok v))
    ∧ (∀ payload req (engine : ChatCompletionRequest → GenResult) v,
       engine req = .ok v →
       invocations (.ok (payload, req)) engine =
         if streamSelected payload then .streaming 200 "text/event-stream" v
         else match v with
              | .chatCompletionResponse body => .json 200 body
              | .chunkGenerator _ => .assertionFailure)
    ∧ (∀ payload v, lookupField payload "stream" = some v →
         streamSelected payload = v.truthy)
    ∧ streamSelected [("stream", .num 1)] = true
    ∧ streamSelected [("stream", .str "yes")] = true
    ∧ streamSelected [("stream", .num 0)] = false
    ∧ streamSelected [("stream", .bool false)] = false := by
  refine ⟨fun _ _ _ _ => rfl, ?_, ?_, rfl, rfl, rfl, rfl⟩
  · intro payload req engine v he
    simp [invocations, he]
  · intro payload v h
    unfold streamSelected
    rw [h]

/-- Concrete instantiations of the raw-truthiness theorem: the numeric
stream value 1 routes the engine chunks to the streaming branch, and the
selector at the string value "yes" equals that value's truthiness. -/
theorem invocations_raw_truthiness_spec_witness :
    invocations (.ok ([("stream", .num 1)], ⟨[("user", "hi")], false⟩))
        (fun _ => .ok (.chunkGenerator [.str "chunk1"])) =
      .streaming 200 "text/event-stream" (.chunkGenerator [.str "chunk1"])
    ∧ streamSelected [("stream", .str "yes")] = (JVal.str "yes").truthy :=
  ⟨invocations_raw_truthiness_spec.2.1 [("stream", .num 1)] ⟨[("user", "hi")], false⟩
      (fun _ => .ok (.chunkGenerator [.str "chunk1"])) (.chunkGenerator [.str "chunk1"]) rfl,
   invocations_raw_truthiness_spec.2.2.1 [("stream", .str "yes")] (.str "yes") rfl⟩

/-- Claim C10: the per-request handler leaves the module state (engine
handle and serving-chat globals) exactly as it found it, for every
request; the only writes to those globals are the two assignments
performed during one-time application construction. -/
theorem invocations_frame_spec :
    (∀ (E S : Type) (st : ModuleState E S)
       (parsed : Except String (List (String × JVal) × ChatCompletionRequest))
       (create_chat_completion : S → ChatCompletionRequest → GenResult),
       (invocations_app st parsed create_chat_completion).2 = st)
    ∧ (∀ (E S : Type) (from_engine_args : EngineConfig → E)
        (mkOpenAIServingChat : E → S) (cfg : EngineConfig) (st : ModuleState E S),
       (create_app_globals from_engine_args mkOpenAIServingChat cfg st).async_engine_client
           = from_engine_args cfg
       ∧ (create_app_globals from_engine_args mkOpenAIServingChat cfg st).openai_serving_chat
           = mkOpenAIServingChat (from_engine_args cfg)) :=
  ⟨fun _ _ _ _ _ => rfl, fun _ _ _ _ _ _ => ⟨rfl, rfl⟩⟩

end SagemakerServing
